import Mathlib

/-!
Verification development for the GAIL slot-machine simulator (C++ sources).

The definitions below are a shallow embedding of the C++ code:
`float`/`double` values are modelled as exact rationals (`ℚ`), C++ `int`
as `ℤ`, containers as lists.  Random draws (PRNG outputs, the
`std::normal_distribution` sample, the ML model outputs) are passed in as
explicit oracle arguments, so every definition is an executable function
of its inputs.  Wall-clock quantities (timestamps, the session duration
check) are modelled by oracle predicates where the control flow consults
them and omitted where they are only recorded.

Each embedded definition cites the C++ function it is translated from.
Definitions whose doc comment says "claim-side" follow the wording of the
specification instead; they exist only to be compared with the embedded
code.
-/

namespace GailSim

/-- `SpinGrid` from src/core/types.h: a flat vector of symbols (C++ `std::vector<int>`). -/
abbrev SpinGrid := List Int

/-- `PaylineIndices` from src/core/types.h: a vector of grid indices. -/
abbrev PaylineIndices := List Int

/-- `PayoutArray` from src/core/types.h: a vector of payout factors (C++ `std::vector<float>`). -/
abbrev PayoutArray := List ℚ

/-- `BetOptions` from src/core/types.h: the admissible bet amounts for one currency. -/
abbrev BetOptions := List ℚ

/-- `SpinResult` from src/core/types.h (the `timestamp` wall-clock field is omitted;
no claim depends on it). -/
structure SpinResult where
  grid : SpinGrid := []
  bet_amount : ℚ := 0
  win_amount : ℚ := 0
  profit : ℚ := 0
  trigger_free_spins : Bool := false
  free_spins_remaining : Int := 0
  in_free_spins : Bool := false
  spin_number : Int := 0
deriving Repr, DecidableEq

/-- `PlayerDecision` from src/core/types.h. -/
structure PlayerDecision where
  bet_amount : ℚ
  delay_time : ℚ
  continue_playing : Bool
deriving Repr, DecidableEq

/-- The `PlayerDecision(bet, delay)` constructor from src/core/types.h:
`continue_playing` is initialised to `bet > 0`. -/
def mkPlayerDecision (bet : ℚ) (delay : ℚ) : PlayerDecision :=
  { bet_amount := bet, delay_time := delay, continue_playing := decide (bet > 0) }

/-- `SessionStats` from src/core/types.h with the constructor's zero defaults
(string ids and the wall-clock `session_duration` are omitted; no claim depends on them). -/
structure SessionStats where
  total_spins : Int := 0
  total_bet : ℚ := 0
  total_win : ℚ := 0
  total_profit : ℚ := 0
  initial_balance : ℚ := 0
  final_balance : ℚ := 0
  free_spins_triggered : Int := 0
  free_spins_played : Int := 0
  max_win : ℚ := 0
  max_loss_streak : ℚ := 0
  rtp : ℚ := 0
deriving Repr, DecidableEq

/-- `SessionData` from src/core/types.h. -/
structure SessionData where
  current_balance : ℚ := 0
  recent_spins : List SpinResult := []
  stats : SessionStats := {}
  available_bets : BetOptions := []
  in_free_spins : Bool := false
  free_spins_remaining : Int := 0
deriving Repr, DecidableEq

/-- `MachineConfig` from src/core/types.h (the fields the spin path reads).
The C++ pay table is keyed by `std::to_string` of the symbol value; since
`to_string : int → string` is injective we key it by the symbol itself. -/
structure MachineConfig where
  free_spins_count : Int
  free_spins_multiplier : ℚ
  wild_symbols : List Int
  scatter_symbol : Int
  window_size : Nat
  active_lines : Int
  paylines : List PaylineIndices
  pay_table : List (Int × PayoutArray)
deriving Repr, DecidableEq

/-! ## Paytable evaluation (src/machines/paytable.cpp) -/

/-- `PayTable::GetPaylineSymbols` (paytable.cpp lines 45-57): collect `grid[index]`
for each payline index that is in bounds, skipping out-of-range indices. -/
def getPaylineSymbols (grid : SpinGrid) (payline : PaylineIndices) : List Int :=
  payline.filterMap fun index =>
    if 0 ≤ index ∧ index < (grid.length : Int) then some (grid.getD index.toNat 0) else none

/-- Loop body of `PayTable::CountConsecutiveSymbols` (paytable.cpp lines 65-76).
`first` is the current anchor, `count` the run length so far.  The wild symbol
is hard-coded to `101` in this function (comment in the source: "简化wild逻辑 -
假设101是wild符号"). -/
def countConsecutiveGo (first : Int) (rest : List Int) (count : Nat) : Nat :=
  match rest with
  | [] => count
  | current :: tail =>
    if current = first ∨ current = 101 then countConsecutiveGo first tail (count + 1)
    else if first = 101 then countConsecutiveGo current tail (count + 1)
    else count

/-- `PayTable::CountConsecutiveSymbols` (paytable.cpp lines 59-79). -/
def countConsecutiveSymbols (symbols : List Int) : Nat :=
  match symbols with
  | [] => 0
  | first :: rest => countConsecutiveGo first rest 1

/-- `PayTable::GetPayout` (paytable.cpp lines 81-94): look up the payout row for
`symbol`; index it with `count - 3`; out-of-range indices (including runs longer
than the row) return `0`. -/
def getPayout (pay_table : List (Int × PayoutArray)) (symbol : Int) (count : Nat) : ℚ :=
  match pay_table.lookup symbol with
  | none => 0
  | some payouts =>
    let index : Int := (count : Int) - 3
    if 0 ≤ index ∧ index < (payouts.length : Int) then payouts.getD index.toNat 0 else 0

/-- The base-symbol scan of `PayTable::CalculatePaylineWin` (paytable.cpp lines 33-39):
start with `symbols[0]`, replace it by the first symbol that is not `101`. -/
def paylineBaseSymbol (symbols : List Int) : Int :=
  match symbols.find? (fun s => decide (s ≠ 101)) with
  | some s => s
  | none => symbols.headD 0

/-- `PayTable::CalculatePaylineWin` (paytable.cpp lines 24-43). -/
def calculatePaylineWin (pay_table : List (Int × PayoutArray)) (grid : SpinGrid)
    (payline : PaylineIndices) (bet_amount : ℚ) : ℚ :=
  let symbols := getPaylineSymbols grid payline
  if symbols.isEmpty then 0
  else
    let consecutive_count := countConsecutiveSymbols symbols
    if consecutive_count < 3 then 0
    else getPayout pay_table (paylineBaseSymbol symbols) consecutive_count * bet_amount

/-- `PayTable::CalculateTotalWin` (paytable.cpp lines 12-22): sum the wins of the
first `min(active_lines, paylines.size())` paylines. -/
def calculateTotalWin (pay_table : List (Int × PayoutArray)) (paylines : List PaylineIndices)
    (grid : SpinGrid) (bet_amount : ℚ) (active_lines : Int) : ℚ :=
  let lines_to_check : Int := min active_lines (paylines.length : Int)
  ((paylines.take lines_to_check.toNat).map
    (fun pl => calculatePaylineWin pay_table grid pl bet_amount)).sum

/-! ## Reel sampling (src/machines/reel.cpp) -/

/-- `Reel::GetSymbolsAtPosition` (reel.cpp lines 13-24): read `count` consecutive
symbols of the cyclic strip starting at `position`.  The `Reel` constructor rejects
empty strips, so `symbols.length > 0` wherever the code calls this. -/
def getSymbolsAtPosition (symbols : List Int) (position : Nat) (count : Nat) : List Int :=
  (List.range count).map fun i => symbols.getD ((position + i) % symbols.length) 0

/-- `ReelSet::GenerateGrid` (reel.cpp lines 50-65): for each reel draw a start
position and append its `window_size` visible symbols to the flat grid.  The
uniform position draws of the worker PRNG are passed in as `positions`
(one per reel, each in `[0, reel.length)` by `std::uniform_int_distribution`). -/
def generateGrid (reels : List (List Int)) (window_size : Nat)
    (positions : List Nat) : SpinGrid :=
  ((reels.zip positions).map fun rp => getSymbolsAtPosition rp.1 rp.2 window_size).flatten

/-! ## Slot machine (src/machines/slot_machine.cpp) -/

/-- `SlotMachine::CheckFreeSpinsTrigger` (slot_machine.cpp lines 145-164): count the
columns `col < grid.size() / window_size` in which some cell `grid[row * num_reels + col]`
equals the scatter symbol; trigger iff at least three such columns. -/
def checkFreeSpinsTrigger (config : MachineConfig) (grid : SpinGrid) : Bool :=
  let num_reels := grid.length / config.window_size
  let scatter_columns :=
    ((List.range num_reels).filter fun col =>
      (List.range config.window_size).any fun row =>
        grid.getD (row * num_reels + col) 0 == config.scatter_symbol).length
  decide (scatter_columns ≥ 3)

/-- `SlotMachine::Spin` (slot_machine.cpp lines 54-87; the verbatim duplicate after
the `return` is dead code).  `reel_sets` models the machine's `reel_sets_` map as an
association list; the spin uses the `"bonus"` set during free spins when present,
falling back to `"normal"`.  `positions` are the PRNG position draws consumed by
`ReelSet::GenerateGrid`.  The wall-clock `timestamp` is omitted. -/
def slotMachineSpin (config : MachineConfig) (reel_sets : List (String × List (List Int)))
    (positions : List Nat) (bet_amount : ℚ) (in_free_spins : Bool)
    (free_spins_remaining : Int) : SpinResult :=
  let requested := if in_free_spins then "bonus" else "normal"
  let reel_set_name := if (reel_sets.lookup requested).isSome then requested else "normal"
  let reels := (reel_sets.lookup reel_set_name).getD []
  let grid := generateGrid reels config.window_size positions
  let win_amount :=
    calculateTotalWin config.pay_table config.paylines grid bet_amount config.active_lines
  if in_free_spins then
    { grid := grid, bet_amount := bet_amount,
      win_amount := win_amount * config.free_spins_multiplier,
      profit := win_amount * config.free_spins_multiplier - bet_amount,
      trigger_free_spins := false,
      free_spins_remaining := max 0 (free_spins_remaining - 1),
      in_free_spins := true }
  else
    let trigger := checkFreeSpinsTrigger config grid
    { grid := grid, bet_amount := bet_amount, win_amount := win_amount,
      profit := win_amount - bet_amount,
      trigger_free_spins := trigger,
      free_spins_remaining := if trigger then config.free_spins_count else 0,
      in_free_spins := false }

/-! ## Claim-side definitions for the scatter layout (spec §4.1, §4.3) -/

/-- Claim-side: the cells `ReelSet::GenerateGrid` wrote for reel column `c`, namely
the `window_size` consecutive symbols drawn from reel `c` (the grid is the
concatenation of the per-reel windows, so reel `c` occupies indices
`c*window_size … c*window_size + window_size - 1`). -/
def assemblerReelColumn (window_size : Nat) (grid : SpinGrid) (c : Nat) : List Int :=
  (grid.drop (c * window_size)).take window_size

/-- Claim-side: the number of distinct reel columns (in the assembler's layout)
whose visible window contains the scatter symbol. -/
def scatterReelColumnCount (config : MachineConfig) (grid : SpinGrid) : Nat :=
  let num_reels := grid.length / config.window_size
  ((List.range num_reels).filter fun c =>
    (assemblerReelColumn config.window_size grid c).contains config.scatter_symbol).length

/-- Claim-side (spec §4.2): left-anchored consecutive run length with wild
substitution relative to a wild set `wild`: the anchor is the first symbol not in
`wild` (if none exists the run is all wild), and the run extends from the left
while each symbol equals the anchor or is wild. -/
def specRunLength (wild : List Int) (symbols : List Int) : Nat :=
  match symbols.find? (fun s => decide (s ∉ wild)) with
  | none => symbols.length
  | some anchor => (symbols.takeWhile (fun s => decide (s = anchor ∨ s ∈ wild))).length

/-! ## Concrete machine instances used as test inputs -/

/-- A 5-reel machine with scatter symbol `9` and 3-row window; each reel strip has
length 1, so the grid after any spin is determined. -/
def c1Config : MachineConfig :=
  { free_spins_count := 10, free_spins_multiplier := 2, wild_symbols := [],
    scatter_symbol := 9, window_size := 3, active_lines := 0, paylines := [],
    pay_table := [] }

/-- Five single-symbol reel strips: reel 0 shows only the scatter `9`,
reels 1-4 show only `1`. -/
def c1Reels : List (List Int) := [[9], [1], [1], [1], [1]]

/-- A 3-reel, 1-row machine configured with wild set `{5}` (not the hard-coded
`101`), one payline and a payout row for symbol `7`. -/
def c3Config : MachineConfig :=
  { free_spins_count := 0, free_spins_multiplier := 1, wild_symbols := [5],
    scatter_symbol := 0, window_size := 1, active_lines := 1, paylines := [[0, 1, 2]],
    pay_table := [(7, [10, 20, 30])] }

/-! ## Initial-balance distribution (src/core/types.cpp) and player base
(src/players/base_player.cpp) -/

/-- `BalanceDistribution` (declared in src/core/types.h; its fields `avg`, `std`,
`min`, `max` are the ones `BalanceDistribution::GenerateBalance` reads). -/
structure BalanceDistribution where
  avg : ℚ
  std : ℚ
  min : ℚ
  max : ℚ
deriving Repr, DecidableEq

/-- `std::clamp(v, lo, hi)`: `v < lo ? lo : (hi < v ? hi : v)`. -/
def stdClamp (v lo hi : ℚ) : ℚ :=
  if v < lo then lo else if hi < v then hi else v

/-- `BalanceDistribution::GenerateBalance` (types.cpp lines 9-22): when `std ≤ 0`
return `avg` directly; otherwise clamp the normal-distribution sample to
`[min, max]`.  `normal_draw` is the oracle for the `std::normal_distribution`
sample drawn from the thread-local RNG. -/
def generateBalance (d : BalanceDistribution) (normal_draw : ℚ) : ℚ :=
  if d.std ≤ 0 then d.avg else stdClamp normal_draw d.min d.max

/-- The balance/activity state of `BasePlayer` (base_player.h lines 30-34). -/
structure BasePlayerState where
  balance : ℚ
  active : Bool
deriving Repr, DecidableEq

/-- `BasePlayer::Reset` (base_player.cpp lines 134-137): re-sample the balance from
the configured distribution and re-arm the activity flag.  The `BasePlayer`
constructor initialises the state the same way. -/
def basePlayerReset (d : BalanceDistribution) (normal_draw : ℚ)
    (_st : BasePlayerState) : BasePlayerState :=
  { balance := generateBalance d normal_draw, active := true }

/-! ## V1 player decision path (src/players/models/v1) -/

/-- `V1DataProcessor::CalculateStreak` (v1_data_processor.cpp lines 97-115): walk
the recent spins from the most recent backwards while the win/loss sign matches
the last spin's, adding `+1` per win or `-1` per loss. -/
def calculateStreak (session_data : SessionData) : ℚ :=
  match session_data.recent_spins with
  | [] => 0
  | _ :: _ =>
    let rev := session_data.recent_spins.reverse
    let winning := decide ((rev.headD {}).profit > 0)
    let run := (rev.takeWhile (fun s => decide (s.profit > 0) == winning)).length
    if winning then (run : ℚ) else -(run : ℚ)

/-- `V1DataProcessor::CalculateDeltaProfit` (v1_data_processor.cpp lines 117-124). -/
def calculateDeltaProfit (session_data : SessionData) : ℚ :=
  if session_data.recent_spins.length < 2 then 0
  else
    (session_data.recent_spins.getLastD {}).profit -
      (session_data.recent_spins.getD (session_data.recent_spins.length - 2) {}).profit

/-- `V1DataProcessor::PrepareBettingInput` (v1_data_processor.cpp lines 30-63):
the fixed 12-vector fed to the betting model (`prev_profit` stays `0` in the
source; `slot_type`, `delta_t` and `currency_flag` are the constants `1`). -/
def prepareBettingInput (session_data : SessionData) : List ℚ :=
  let current_profit :=
    if session_data.recent_spins.isEmpty then 0
    else (session_data.recent_spins.getLastD {}).profit
  let prev_bet :=
    if session_data.recent_spins.isEmpty then 0
    else (session_data.recent_spins.getLastD {}).bet_amount
  [session_data.current_balance, current_profit, calculateStreak session_data, 1,
   session_data.current_balance, 1, calculateDeltaProfit session_data, 0, prev_bet,
   session_data.current_balance, 0, 1]

/-- `V1DataProcessor::PrepareTerminationInput` (v1_data_processor.cpp lines 65-95):
the fixed 8-vector fed to the termination model. -/
def prepareTerminationInput (session_data : SessionData) : List ℚ :=
  let current_bet :=
    if session_data.recent_spins.isEmpty then 0
    else (session_data.recent_spins.getLastD {}).bet_amount
  let prev_bet :=
    if session_data.recent_spins.length > 1 then
      (session_data.recent_spins.getD (session_data.recent_spins.length - 2) {}).bet_amount
    else 0
  let streak := calculateStreak session_data
  [session_data.current_balance, session_data.stats.total_profit, current_bet,
   streak, max 0 streak, prev_bet, session_data.current_balance,
   session_data.stats.total_profit]

/-- `V1ModelLoader::PredictBetAmount` (v1_model_loader.cpp lines 118-148), with the
loaded betting model as an oracle function: empty output or a non-positive first
component fall back to the default bet `1`. -/
def predictBetAmount (betting_model : List ℚ → List ℚ) (betting_input : List ℚ) : ℚ :=
  match betting_model betting_input with
  | [] => 1
  | predicted_bet :: _ => if predicted_bet ≤ 0 then 1 else predicted_bet

/-- `V1ModelLoader::PredictTermination` (v1_model_loader.cpp lines 150-183), with
the loaded termination (DQN) model and the isolation forest as oracle functions:
empty DQN output returns `false`; otherwise the DQN verdict is `output[0] > 0.5`,
and an anomalous isolation-forest score (empty output or first component `≤ 0`)
overrides the verdict to `true` (stop). -/
def predictTermination (termination_model isolation_forest : List ℚ → List ℚ)
    (termination_input : List ℚ) : Bool :=
  match termination_model termination_input with
  | [] => false
  | q :: _ =>
    let dqn_decision := decide (q > 1 / 2)
    let isolation_output := isolation_forest termination_input
    let is_normal := decide (¬ isolation_output.isEmpty ∧ isolation_output.headD 0 > 0)
    if !is_normal then true else dqn_decision

/-- `BasePlayer::IsValidBet` (base_player.cpp lines 139-146): positive, affordable
and a member of the session's available-bets list. -/
def isValidBet (balance : ℚ) (bet_amount : ℚ) (session_data : SessionData) : Bool :=
  if bet_amount ≤ 0 then false
  else if bet_amount > balance then false
  else session_data.available_bets.contains bet_amount

/-- The v1 player fields `MakeDecision` reads and writes (v1_player.h / base_player.h):
the inherited balance plus the first-bet latch. -/
structure V1State where
  balance : ℚ
  is_first_bet : Bool
  first_bet_amount : ℚ
deriving Repr, DecidableEq

/-- `V1Player::DecideBetAmount` (v1_player.cpp lines 132-143): ask the betting
model; an invalid prediction falls back to `BasePlayer::GetRandomBet`, whose
uniform choice among affordable bets is the oracle `random_bet`. -/
def v1DecideBetAmount (betting_model : List ℚ → List ℚ) (random_bet : ℚ)
    (st : V1State) (session_data : SessionData) : ℚ :=
  let predicted_bet := predictBetAmount betting_model (prepareBettingInput session_data)
  if !(isValidBet st.balance predicted_bet session_data) then random_bet
  else predicted_bet

/-- `V1Player::MakeDecision` (v1_player.cpp lines 93-118).  The `ShouldTerminate`
check at the top of the function is commented out in the source (lines 96-99), so
no termination model is consulted; the decision is `PlayerDecision(bet, delay)`
where the first call uses the pre-computed `first_bet_amount_` and later calls use
`DecideBetAmount`.  `random_delay` is the oracle for `DecideDelayTime`'s uniform
draw. -/
def v1MakeDecision (betting_model : List ℚ → List ℚ) (random_bet random_delay : ℚ)
    (st : V1State) (session_data : SessionData) : PlayerDecision × V1State :=
  if st.is_first_bet then
    (mkPlayerDecision st.first_bet_amount random_delay, { st with is_first_bet := false })
  else
    (mkPlayerDecision (v1DecideBetAmount betting_model random_bet st session_data)
      random_delay, st)

/-! ## Session controller (src/core/session_controller.cpp)

The controller drives an abstract `PlayerInterface` and `MachineInterface`.
They are modelled by oracle functions in `SessionEnv`:

* `decide_fn` is `player->MakeDecision` as a pure state transformer on an
  abstract player-state type `P`;
* `spin_fn` is `machine->Spin`; its first argument is the number of spins
  already executed, which identifies the position in the machine's PRNG stream;
* `duration_exceeded` models the wall-clock test of `CheckSessionLimits`
  (`duration.count() >= max_duration`) as an oracle indexed by the same spin
  count — each loop iteration performs this check exactly once;
* `available_bets` is the machine's bet-options list for the player's currency;
  `SlotMachine::IsValidBet` and `SlotMachine::GetBetOptions` both read the same
  `config_.bet_table` entry (slot_machine.cpp lines 119-130).

The player's balance and activity flag live in `ControllerState` because the
controller reads and writes them through `GetBalance`/`UpdateBalance`/`IsActive`
(for every player in the repository `IsActive()` is `balance_ > 0.0f && active_`,
base_player.h line 18).  The think-time sleep and all logging are no-ops for the
state. -/

/-- The oracles a session runs against (see the section comment). -/
structure SessionEnv (P : Type) where
  decide_fn : P → SessionData → PlayerDecision × P
  spin_fn : Nat → ℚ → Bool → Int → SpinResult
  duration_exceeded : Nat → Bool
  available_bets : BetOptions

/-- The mutable state `SessionController::RunSession` threads through its loop:
the player (abstract state + balance + activity flag) and the controller's own
`in_free_spins_`, `free_spins_remaining_` and `spin_history_` fields. -/
structure ControllerState (P : Type) where
  pstate : P
  balance : ℚ
  active : Bool
  in_free_spins : Bool
  free_spins_remaining : Int
  spin_history : List SpinResult

/-- The statistics block of `SessionController::PrepareSessionData`
(session_controller.cpp lines 125-143): `total_spins` is the history length and
the loop accumulates bets, wins, profits, free-spin counters and the running
maximum win. -/
def statsFromHistory (history : List SpinResult) : SessionStats :=
  history.foldl
    (fun st spin =>
      { st with
        total_bet := st.total_bet + spin.bet_amount,
        total_win := st.total_win + spin.win_amount,
        total_profit := st.total_profit + spin.profit,
        free_spins_triggered :=
          st.free_spins_triggered + (if spin.trigger_free_spins then 1 else 0),
        free_spins_played :=
          st.free_spins_played + (if spin.in_free_spins then 1 else 0),
        max_win := max st.max_win spin.win_amount })
    { total_spins := (history.length : Int) }

/-- `SessionController::PrepareSessionData` (session_controller.cpp lines 107-146):
current balance, free-spin flags, the machine's bet options, the last up-to-10
spins, and the accumulated statistics. -/
def prepareSessionData {P : Type} (env : SessionEnv P) (st : ControllerState P) :
    SessionData :=
  { current_balance := st.balance,
    in_free_spins := st.in_free_spins,
    free_spins_remaining := st.free_spins_remaining,
    available_bets := env.available_bets,
    recent_spins :=
      st.spin_history.drop (st.spin_history.length - min st.spin_history.length 10),
    stats := statsFromHistory st.spin_history }

/-- `SessionController::UpdateSessionStats` (session_controller.cpp lines 182-201).
`max_loss_streak` only ever takes the `min` with the single spin's profit when that
profit is negative. -/
def updateSessionStats (stats : SessionStats) (spin_result : SpinResult) : SessionStats :=
  let stats :=
    { stats with
      total_spins := stats.total_spins + 1,
      total_bet := stats.total_bet + spin_result.bet_amount,
      total_win := stats.total_win + spin_result.win_amount,
      total_profit := stats.total_profit + spin_result.profit,
      free_spins_triggered :=
        stats.free_spins_triggered + (if spin_result.trigger_free_spins then 1 else 0),
      free_spins_played :=
        stats.free_spins_played + (if spin_result.in_free_spins then 1 else 0),
      max_win := max stats.max_win spin_result.win_amount }
  if spin_result.profit < 0 then
    { stats with max_loss_streak := min stats.max_loss_streak spin_result.profit }
  else stats

/-- `SessionController::ExecuteSpin` (session_controller.cpp lines 148-180): debit
the bet, spin the machine, credit the win, update the free-spin mode, stamp the
spin number, append to the history and update the statistics. -/
def executeSpin {P : Type} (env : SessionEnv P) (bet_amount : ℚ)
    (st : ControllerState P) (stats : SessionStats) :
    ControllerState P × SessionStats :=
  let spin_result :=
    env.spin_fn st.spin_history.length bet_amount st.in_free_spins st.free_spins_remaining
  let balance2 := st.balance - bet_amount + spin_result.win_amount
  let fs :=
    if spin_result.trigger_free_spins ∧ ¬ st.in_free_spins then
      (true, spin_result.free_spins_remaining)
    else if st.in_free_spins then
      (decide (spin_result.free_spins_remaining > 0), spin_result.free_spins_remaining)
    else (st.in_free_spins, st.free_spins_remaining)
  let stamped := { spin_result with spin_number := (st.spin_history.length : Int) + 1 }
  ({ st with
      balance := balance2,
      in_free_spins := fs.1,
      free_spins_remaining := fs.2,
      spin_history := st.spin_history ++ [stamped] },
   updateSessionStats stats stamped)

/-- `SessionController::CheckSessionLimits` (session_controller.cpp lines 203-221):
spin-count cap, then the wall-clock duration cap (modelled by the
`duration_exceeded` oracle indexed by the current spin count). -/
def checkSessionLimits {P : Type} (env : SessionEnv P) (stats : SessionStats)
    (max_spins : Int) : Bool :=
  if stats.total_spins ≥ max_spins then true
  else env.duration_exceeded stats.total_spins.toNat

/-- The `while` loop of `SessionController::RunSession` (session_controller.cpp
lines 40-80), as a fuel-indexed recursion: `none` means the fuel ran out with the
loop still running; `some` carries the state and statistics at loop exit.  The
guard order is exactly the source's: `IsActive`, session limits, the player's
decision (`continue_playing` / `bet ≤ 0`), bet membership
(`MachineInterface::IsValidBet`), affordability, then the spin. -/
def sessionLoop {P : Type} (env : SessionEnv P) (max_spins : Int) :
    Nat → ControllerState P → SessionStats → Option (ControllerState P × SessionStats)
  | 0, _, _ => none
  | fuel + 1, st, stats =>
    if ¬ (st.balance > 0 ∧ st.active) then some (st, stats)
    else if checkSessionLimits env stats max_spins then some (st, stats)
    else
      let dp := env.decide_fn st.pstate (prepareSessionData env st)
      let st1 := { st with pstate := dp.2 }
      if ¬ dp.1.continue_playing ∨ dp.1.bet_amount ≤ 0 then some (st1, stats)
      else if ¬ (env.available_bets.contains dp.1.bet_amount) then some (st1, stats)
      else if dp.1.bet_amount > st1.balance then some (st1, stats)
      else
        let next := executeSpin env dp.1.bet_amount st1 stats
        sessionLoop env max_spins fuel next.1 next.2

/-- The epilogue of `SessionController::RunSession` (session_controller.cpp lines
86-97): record the final balance, recompute the total profit, and set
`rtp = total_win / total_bet` when `total_bet > 0` (otherwise `rtp` keeps its
constructor value `0`). -/
def finalizeStats {P : Type} (st : ControllerState P) (stats : SessionStats) :
    SessionStats :=
  let stats :=
    { stats with
      final_balance := st.balance,
      total_profit := st.balance - stats.initial_balance }
  if stats.total_bet > 0 then { stats with rtp := stats.total_win / stats.total_bet }
  else stats

/-- `SessionController::RunSession` (session_controller.cpp lines 19-105): fresh
statistics seeded with the player's balance, a cleared spin history, the guarded
loop, then the epilogue.  (Wall-clock duration bookkeeping and logging omitted;
the exception handler is not modelled — all oracles are total functions.) -/
def runSession {P : Type} (env : SessionEnv P) (max_spins : Int) (fuel : Nat)
    (init : ControllerState P) : Option (ControllerState P × SessionStats) :=
  let stats0 : SessionStats :=
    { initial_balance := init.balance, final_balance := init.balance }
  (sessionLoop env max_spins fuel { init with spin_history := [] } stats0).map
    (fun r => (r.1, finalizeStats r.1 r.2))

/-- Claim-side loop for C5 (spec §4.4 step 3): identical to `sessionLoop` except
that each iteration terminates exactly when the claim's disjunction first holds —
caps exceeded, `continue_playing` false, bet ≤ 0, bet not in the available-bets
list, or bet beyond the balance — with no separate `IsActive` guard. -/
def sessionLoopSpec {P : Type} (env : SessionEnv P) (max_spins : Int) :
    Nat → ControllerState P → SessionStats → Option (ControllerState P × SessionStats)
  | 0, _, _ => none
  | fuel + 1, st, stats =>
    let dp := env.decide_fn st.pstate (prepareSessionData env st)
    let st1 := { st with pstate := dp.2 }
    if checkSessionLimits env stats max_spins ∨ ¬ dp.1.continue_playing ∨
        dp.1.bet_amount ≤ 0 ∨ ¬ (env.available_bets.contains dp.1.bet_amount) ∨
        dp.1.bet_amount > st.balance then some (st1, stats)
    else
      let next := executeSpin env dp.1.bet_amount st1 stats
      sessionLoopSpec env max_spins fuel next.1 next.2

/-! ## Work-stealing thread pool (src/core/thread_pool.cpp)

Tasks are identified by `Nat` ids; executing a task appends its id to
`executed`.  The model follows one worker's `WorkerThread` loop run against a
pool state in which the shutdown flag has already been set (the scenario of
claim C9: after `Shutdown()` stores `shutdown_ = true` and broadcasts, thread
interleavings only determine when each worker next reaches the loop guard). -/

/-- The shared state of `ThreadPool` the worker loop touches: the shutdown flag,
the per-thread deques (`queues_[i]`, front of the list = front of the deque), and
the trace of executed task ids. -/
structure PoolState where
  shutdown : Bool
  queues : List (List Nat)
  executed : List Nat
deriving Repr, DecidableEq

/-- `WorkQueue::PopBack` (thread_pool.h lines 34-41). -/
def popBack (q : List Nat) : Option (Nat × List Nat) :=
  match q.getLast? with
  | none => none
  | some t => some (t, q.dropLast)

/-- `WorkQueue::PopFront` (thread_pool.h lines 43-50). -/
def popFront (q : List Nat) : Option (Nat × List Nat) :=
  match q with
  | [] => none
  | t :: rest => some (t, rest)

/-- `ThreadPool::ExecuteLocalTask` (thread_pool.cpp lines 61-76): pop the back of
the worker's own deque and run the task. -/
def executeLocalTask (thread_id : Nat) (ps : PoolState) : Option PoolState :=
  match popBack (ps.queues.getD thread_id []) with
  | none => none
  | some tq =>
    some { ps with
      queues := ps.queues.set thread_id tq.2,
      executed := ps.executed ++ [tq.1] }

/-- The `for` loop of `ThreadPool::StealTask` (thread_pool.cpp lines 80-96):
`attempt` is the current attempt index, the second `Nat` the remaining attempts
(`thread_count - 1` in total); the victim is `(thread_id + 1 + attempt) % thread_count`
and theft pops the front of its deque. -/
def stealTaskAux (thread_id thread_count : Nat) (ps : PoolState) :
    Nat → Nat → Option PoolState
  | _, 0 => none
  | attempt, remaining + 1 =>
    let target := (thread_id + 1 + attempt) % thread_count
    match popFront (ps.queues.getD target []) with
    | some tq =>
      some { ps with
        queues := ps.queues.set target tq.2,
        executed := ps.executed ++ [tq.1] }
    | none => stealTaskAux thread_id thread_count ps (attempt + 1) remaining

/-- `ThreadPool::StealTask` (thread_pool.cpp lines 78-98). -/
def stealTask (thread_id thread_count : Nat) (ps : PoolState) : Option PoolState :=
  stealTaskAux thread_id thread_count ps 0 (thread_count - 1)

/-- One iteration of the `while` body of `ThreadPool::WorkerThread`
(thread_pool.cpp lines 39-56): local pop, else steal, else wait on the condition
variable for ≈5 ms (a state no-op). -/
def workerIteration (thread_id thread_count : Nat) (ps : PoolState) : PoolState :=
  match executeLocalTask thread_id ps with
  | some ps2 => ps2
  | none =>
    match stealTask thread_id thread_count ps with
    | some ps2 => ps2
    | none => ps

/-- The `while (!shutdown_)` loop of `ThreadPool::WorkerThread` (thread_pool.cpp
lines 34-59), fuel-indexed: the returned flag is `true` when the worker exited
(guard observed `shutdown_ = true`) and `false` when the fuel ran out with the
worker still looping. -/
def workerLoop (thread_id thread_count : Nat) :
    Nat → PoolState → PoolState × Bool
  | 0, ps => (ps, false)
  | fuel + 1, ps =>
    if ps.shutdown then (ps, true)
    else workerLoop thread_id thread_count fuel (workerIteration thread_id thread_count ps)

/-- A mid-session observation used to test the v1 player: one prior spin bet 1 and
lost it, the available bets are `[2]`. -/
def c4Data : SessionData :=
  { current_balance := 100,
    recent_spins := [{ bet_amount := 1, win_amount := 0, profit := -1 }],
    stats := { total_spins := 1, total_bet := 1, total_profit := -1 },
    available_bets := [2],
    in_free_spins := false,
    free_spins_remaining := 0 }

/-- A v1 player state past its first bet. -/
def c4State : V1State :=
  { balance := 100, is_first_bet := false, first_bet_amount := 1 }

/-- A deterministic oracle environment over the trivial player-state `Unit`:
the player always bets `1` with no delay, spins always lose the bet, the
wall-clock cap never fires, and `1` is the only available bet. -/
def c5Env : SessionEnv Unit :=
  { decide_fn := fun p _ => (mkPlayerDecision 1 0, p),
    spin_fn := fun _ bet _ _ => { bet_amount := bet, win_amount := 0, profit := -bet },
    duration_exceeded := fun _ => false,
    available_bets := [1] }

/-- A fresh controller state for the `c5Env` runs: balance 3, base play. -/
def c5Init : ControllerState Unit :=
  { pstate := (), balance := 3, active := true, in_free_spins := false,
    free_spins_remaining := 0, spin_history := [] }

/-- Same oracle environment as `c5Env`, dedicated to the C8 witness. -/
def c8Env : SessionEnv Unit :=
  { decide_fn := fun p _ => (mkPlayerDecision 1 0, p),
    spin_fn := fun _ bet _ _ => { bet_amount := bet, win_amount := 0, profit := -bet },
    duration_exceeded := fun _ => false,
    available_bets := [1] }

/-- A fresh controller state dedicated to the C8 witness. -/
def c8Init : ControllerState Unit :=
  { pstate := (), balance := 3, active := true, in_free_spins := false,
    free_spins_remaining := 0, spin_history := [] }

/-- Same oracle environment as `c5Env`, dedicated to the C10 witness. -/
def c10Env : SessionEnv Unit :=
  { decide_fn := fun p _ => (mkPlayerDecision 1 0, p),
    spin_fn := fun _ bet _ _ => { bet_amount := bet, win_amount := 0, profit := -bet },
    duration_exceeded := fun _ => false,
    available_bets := [1] }

/-- A fresh controller state dedicated to the C10 witness. -/
def c10Init : ControllerState Unit :=
  { pstate := (), balance := 3, active := true, in_free_spins := false,
    free_spins_remaining := 0, spin_history := [] }

/-! ## Theorems -/

/-- **C1**: refuted on the code — evaluating the spin path at a concrete input.
`ReelSet::GenerateGrid` writes reel `c`'s window at indices
`c·window_size … c·window_size+window_size−1` (reel-major), but
`SlotMachine::CheckFreeSpinsTrigger` reads column `c` at `row·num_reels + c`
(row-major, the layout documented in types.h).  On the machine `c1Config` whose
reel 0 always shows the scatter `9` in all three rows and whose other reels never
show it, the spin reports a free-spin trigger although the scatter appears in only
one reel column of the visible window, so the claimed "iff ≥ 3 distinct reel
columns" fails. -/
theorem c1_scatter_detector_reads_wrong_cells :
    (slotMachineSpin c1Config [("normal", c1Reels)] [0, 0, 0, 0, 0] 1 false 0).trigger_free_spins
      = true
    ∧ scatterReelColumnCount c1Config
        (slotMachineSpin c1Config [("normal", c1Reels)] [0, 0, 0, 0, 0] 1 false 0).grid = 1 := by
  constructor
  · decide
  · decide

/-- Support for C1's claim-side definitions: in the grid `ReelSet::GenerateGrid`
assembles, the cells of reel column `c` (as `assemblerReelColumn` extracts them)
are exactly the `window_size` consecutive symbols drawn from reel `c` at its
drawn position. -/
theorem generateGrid_assemblerReelColumn (window_size : Nat) :
    ∀ (reels : List (List Int)) (positions : List Nat) (c : Nat),
      positions.length = reels.length → c < reels.length →
      assemblerReelColumn window_size (generateGrid reels window_size positions) c
        = getSymbolsAtPosition (reels.getD c []) (positions.getD c 0) window_size := by
  intro reels
  induction reels with
  | nil => intro positions c _ hc; simp at hc
  | cons r rs ih =>
    intro positions c hlen hc
    cases positions with
    | nil => simp at hlen
    | cons p ps =>
      have hseg : (getSymbolsAtPosition r p window_size).length = window_size := by
        simp [getSymbolsAtPosition]
      have hgrid : generateGrid (r :: rs) window_size (p :: ps)
          = getSymbolsAtPosition r p window_size ++ generateGrid rs window_size ps := by
        simp [generateGrid]
      cases c with
      | zero =>
        rw [hgrid]
        simp only [assemblerReelColumn, Nat.zero_mul, List.drop_zero]
        rw [List.take_left' hseg]
        simp [List.getD]
      | succ c2 =>
        rw [hgrid]
        simp only [assemblerReelColumn]
        have hdrop : (getSymbolsAtPosition r p window_size ++ generateGrid rs window_size ps).drop
            ((c2 + 1) * window_size)
            = (generateGrid rs window_size ps).drop (c2 * window_size) := by
          have harith : (c2 + 1) * window_size
              = (getSymbolsAtPosition r p window_size).length + c2 * window_size := by
            rw [hseg]; ring
          rw [harith, List.drop_append]
        rw [hdrop]
        have := ih ps c2 (by simpa using hlen)
          (by have hc2 := hc; simp at hc2; omega)
        simp only [assemblerReelColumn] at this
        rw [this]
        simp

/-- **C2 counterexample**: a six-reel payline showing six consecutive `7`s against
the length-3 payout row `[10, 20, 30]`.  The claim predicts the clamped payout
`row[min(k−3, m−1)] × bet = 30`, but `PayTable::GetPayout` returns `0` for the
out-of-range index `k − 3 = 3`. -/
theorem c2_counterexample :
    calculatePaylineWin [(7, [10, 20, 30])] [7, 7, 7, 7, 7, 7] [0, 1, 2, 3, 4, 5] 1 = 0
    ∧ [(10 : ℚ), 20, 30].getD
        (min (countConsecutiveSymbols (getPaylineSymbols [7, 7, 7, 7, 7, 7] [0, 1, 2, 3, 4, 5]) - 3)
          ([(10 : ℚ), 20, 30].length - 1)) 0 * 1 = 30
    ∧ (0 : ℚ) ≠ 30 := by
  refine ⟨?_, ?_, by norm_num⟩
  · have h1 : getPaylineSymbols [7, 7, 7, 7, 7, 7] [0, 1, 2, 3, 4, 5] = [7, 7, 7, 7, 7, 7] := by
      decide
    have h2 : countConsecutiveSymbols [7, 7, 7, 7, 7, 7] = 6 := by decide
    have h3 : paylineBaseSymbol [7, 7, 7, 7, 7, 7] = 7 := by decide
    have h4 : getPayout [(7, [10, 20, 30])] 7 6 = 0 := by decide
    simp [calculatePaylineWin, h1, h2, h3, h4]
  · have h2 : countConsecutiveSymbols (getPaylineSymbols [7, 7, 7, 7, 7, 7] [0, 1, 2, 3, 4, 5]) = 6 := by
      decide
    rw [h2]
    norm_num

/-- **C2 amended**: for a payline whose left-anchored run (with the code's wild
handling) has length `k ≥ 3` and whose anchor has payout row `row` of length
`m ≥ 3`, the line pays `row[k − 3] × bet` when `k − 3 < m` and `0` when
`k − 3 ≥ m` — there is no clamping to the last entry (and no crash; the
out-of-range lookup is a guarded `0`). -/
theorem c2_payout_no_clamping (pay_table : List (Int × PayoutArray)) (grid : SpinGrid)
    (payline : PaylineIndices) (bet_amount : ℚ) (row : PayoutArray)
    (hk : 3 ≤ countConsecutiveSymbols (getPaylineSymbols grid payline))
    (hrow : pay_table.lookup (paylineBaseSymbol (getPaylineSymbols grid payline)) = some row)
    (hm : 3 ≤ row.length) :
    calculatePaylineWin pay_table grid payline bet_amount =
      (if countConsecutiveSymbols (getPaylineSymbols grid payline) - 3 < row.length
       then row.getD (countConsecutiveSymbols (getPaylineSymbols grid payline) - 3) 0
       else 0) * bet_amount := by
  have hne : (getPaylineSymbols grid payline).isEmpty = false := by
    cases h : getPaylineSymbols grid payline with
    | nil => rw [h] at hk; simp [countConsecutiveSymbols] at hk
    | cons a l => rfl
  unfold calculatePaylineWin getPayout
  simp only [hne, Bool.false_eq_true, if_false, hrow]
  rw [if_neg (by omega : ¬ countConsecutiveSymbols (getPaylineSymbols grid payline) < 3)]
  congr 1
  split_ifs with h1 h2 h2
  · congr 1
    omega
  · exfalso; omega
  · exfalso; omega
  · rfl

/-- Witness for `c2_payout_no_clamping` at a concrete input: three `7`s on a
3-index payline with row `[10, 20, 30]` pay `row[0] × 2`. -/
theorem c2_payout_no_clamping_witness :
    calculatePaylineWin [(7, [10, 20, 30])] [7, 7, 7] [0, 1, 2] 2 =
      (if countConsecutiveSymbols (getPaylineSymbols [7, 7, 7] [0, 1, 2]) - 3
            < ([(10 : ℚ), 20, 30] : PayoutArray).length
       then ([(10 : ℚ), 20, 30] : PayoutArray).getD
              (countConsecutiveSymbols (getPaylineSymbols [7, 7, 7] [0, 1, 2]) - 3) 0
       else 0) * 2 :=
  c2_payout_no_clamping [(7, [10, 20, 30])] [7, 7, 7] [0, 1, 2] 2 [10, 20, 30]
    (by decide) (by decide) (by decide)

/-- **C3 counterexample**: the machine `c3Config` is configured with wild set
`{5}`, yet on the payline symbols `[7, 5, 7]` the code's run length is `1` (it
only substitutes the hard-coded `101`), so the line pays nothing, while the
claimed wild substitution relative to the configured set gives run length `3`
(which would pay `row[0] = 10`). -/
theorem c3_counterexample :
    countConsecutiveSymbols [7, 5, 7] = 1
    ∧ specRunLength c3Config.wild_symbols [7, 5, 7] = 3
    ∧ calculateTotalWin c3Config.pay_table c3Config.paylines [7, 5, 7] 1
        c3Config.active_lines = 0 := by
  refine ⟨by decide, by decide, ?_⟩
  have h1 : getPaylineSymbols [7, 5, 7] [0, 1, 2] = [7, 5, 7] := by decide
  have h2 : countConsecutiveSymbols [7, 5, 7] = 1 := by decide
  have h : calculatePaylineWin [(7, [10, 20, 30])] [7, 5, 7] [0, 1, 2] 1 = 0 := by
    simp [calculatePaylineWin, h1, h2]
  simp [calculateTotalWin, c3Config, h]

/-- Helper for C3: with a non-wild anchor `first`, the run loop counts the leading
symbols equal to `first` or to the hard-coded wild `101`. -/
theorem countConsecutiveGo_of_ne (first : Int) (h : first ≠ 101) (rest : List Int) :
    ∀ c : Nat,
      countConsecutiveGo first rest c =
        c + (rest.takeWhile (fun s => decide (s = first ∨ s ∈ ([101] : List Int)))).length := by
  induction rest with
  | nil => intro c; simp [countConsecutiveGo]
  | cons cur tail ih =>
    intro c
    rw [countConsecutiveGo]
    by_cases h1 : cur = first ∨ cur = 101
    · have hp : decide (cur = first ∨ cur ∈ ([101] : List Int)) = true :=
        decide_eq_true (by simpa using h1)
      rw [if_pos h1, ih (c + 1), List.takeWhile_cons]
      simp only [hp, if_true]
      simp only [List.length_cons]
      omega
    · have hp : decide (cur = first ∨ cur ∈ ([101] : List Int)) = false :=
        decide_eq_false (by simpa using h1)
      rw [if_neg h1, if_neg h, List.takeWhile_cons]
      simp only [hp, Bool.false_eq_true, if_false, List.length_nil, Nat.add_zero]

/-- Helper for C3, all-wild case: when every symbol of `rest` is the hard-coded
wild `101` (no non-wild anchor exists), the run loop counts all of them. -/
theorem countConsecutiveGo_wild_none (rest : List Int)
    (hf : rest.find? (fun s => decide (s ∉ ([101] : List Int))) = none) :
    ∀ c : Nat, countConsecutiveGo 101 rest c = c + rest.length := by
  induction rest with
  | nil => intro c; simp [countConsecutiveGo]
  | cons cur tail ih =>
    intro c
    rw [List.find?_cons] at hf
    have hcur : cur = 101 := by
      by_contra hne
      simp [hne] at hf
    subst hcur
    have hf2 : tail.find? (fun s => decide (s ∉ ([101] : List Int))) = none := by
      simpa using hf
    rw [countConsecutiveGo, if_pos (Or.inr rfl), ih hf2 (c + 1), List.length_cons]
    omega

/-- Helper for C3, anchored case: when the first non-`101` symbol of `rest` is
`anchor`, the run loop counts the leading symbols equal to `anchor` or `101`. -/
theorem countConsecutiveGo_wild_some (rest : List Int) (anchor : Int)
    (hf : rest.find? (fun s => decide (s ∉ ([101] : List Int))) = some anchor) :
    ∀ c : Nat,
      countConsecutiveGo 101 rest c =
        c + (rest.takeWhile (fun s => decide (s = anchor ∨ s ∈ ([101] : List Int)))).length := by
  induction rest with
  | nil => intro c; simp at hf
  | cons cur tail ih =>
    intro c
    rw [List.find?_cons] at hf
    by_cases hcur : cur = 101
    · subst hcur
      have hf2 : tail.find? (fun s => decide (s ∉ ([101] : List Int))) = some anchor := by
        simpa using hf
      have hp : decide ((101 : Int) = anchor ∨ (101 : Int) ∈ ([101] : List Int)) = true :=
        decide_eq_true (Or.inr (by simp))
      rw [countConsecutiveGo, if_pos (Or.inr rfl), ih hf2 (c + 1), List.takeWhile_cons]
      simp only [hp, if_true, List.length_cons]
      omega
    · have hanchor : cur = anchor := by simpa [hcur] using hf
      subst hanchor
      rw [countConsecutiveGo, if_neg (by simpa using hcur), if_pos rfl,
        countConsecutiveGo_of_ne cur hcur tail (c + 1), List.takeWhile_cons]
      simp
      omega

/-- **C3 amended**: the run length used for payout is computed by
`PayTable::CountConsecutiveSymbols` with the wild set fixed to `{101}`, regardless
of the machine's configured `wild_symbols`: it equals the spec's wild-substitution
contract instantiated at the singleton wild set `{101}` (anchor = first symbol that
is not `101`; the run extends while each symbol equals the anchor or is `101`). -/
theorem c3_run_length_wild_fixed_101 (symbols : List Int) :
    countConsecutiveSymbols symbols = specRunLength [101] symbols := by
  cases symbols with
  | nil => rfl
  | cons first rest =>
    have hfc : ((first : Int) :: rest).find? (fun s => decide (s ∉ ([101] : List Int)))
        = if first = 101 then rest.find? (fun s => decide (s ∉ ([101] : List Int)))
          else some first := by
      rw [List.find?_cons]
      by_cases h : first = 101
      · simp [h]
      · simp [h]
    by_cases h : first = 101
    · subst h
      cases hf : rest.find? (fun s => decide (s ∉ ([101] : List Int))) with
      | none =>
        rw [countConsecutiveSymbols, countConsecutiveGo_wild_none rest hf 1]
        have hconv : (fun s : Int => decide (s ∉ ([101] : List Int)))
            = (fun s : Int => !decide (s = 101)) := by
          funext s
          simp
        have hf2 : List.find? (fun s : Int => !decide (s = 101)) rest = none := by
          rw [← hconv]
          exact hf
        simp [specRunLength, hfc, hf2]
        omega
      | some anchor =>
        rw [countConsecutiveSymbols, countConsecutiveGo_wild_some rest anchor hf 1]
        simp at hf
        simp [specRunLength, hfc, hf, List.takeWhile_cons]
        omega
    · rw [countConsecutiveSymbols, countConsecutiveGo_of_ne first h rest 1]
      simp [specRunLength, hfc, h, List.takeWhile_cons]
      omega

/-- **C4 counterexample**: in the session state `c4Data` the termination predictor
(with a DQN oracle outputting `1 > 0.5` and a non-anomalous isolation-forest
oracle) says *stop*, yet `V1Player::MakeDecision` — whose `ShouldTerminate` call
is commented out in the source — returns a decision that continues, so the
continue/stop choice is not produced by the predictor. -/
theorem c4_counterexample :
    predictTermination (fun _ => [1]) (fun _ => [1]) (prepareTerminationInput c4Data) = true
    ∧ (v1MakeDecision (fun _ => [2]) 1 0 c4State c4Data).1.continue_playing = true := by
  constructor
  · simp [predictTermination]
    norm_num
  · simp [v1MakeDecision, c4State, v1DecideBetAmount, predictBetAmount, isValidBet, c4Data,
      mkPlayerDecision]
    norm_num

/-- **C4 amended**: the v1 player's `MakeDecision` never consults the termination
predictor (the `ShouldTerminate` call is disabled in the source); even when
`PredictTermination` — the 0.5-thresholded DQN output with the anomaly-score
override — says *stop* on the 8-feature session vector, the returned decision's
continue flag is simply whether the chosen bet amount is positive. -/
theorem c4_decision_ignores_termination_model
    (betting_model termination_model isolation_forest : List ℚ → List ℚ)
    (random_bet random_delay : ℚ) (st : V1State) (session_data : SessionData)
    (hstop : predictTermination termination_model isolation_forest
        (prepareTerminationInput session_data) = true) :
    (v1MakeDecision betting_model random_bet random_delay st session_data).1.continue_playing
      = decide
          ((v1MakeDecision betting_model random_bet random_delay st session_data).1.bet_amount
            > 0) := by
  unfold v1MakeDecision
  by_cases h : st.is_first_bet <;> simp [h, mkPlayerDecision]

/-- Witness for `c4_decision_ignores_termination_model` at the concrete state
`c4State`/`c4Data` with oracles whose predictor verdict is *stop*. -/
theorem c4_decision_ignores_termination_model_witness :
    (v1MakeDecision (fun _ => [2]) 1 0 c4State c4Data).1.continue_playing
      = decide ((v1MakeDecision (fun _ => [2]) 1 0 c4State c4Data).1.bet_amount > 0) :=
  c4_decision_ignores_termination_model (fun _ => [2]) (fun _ => [1]) (fun _ => [1]) 1 0
    c4State c4Data (by simp [predictTermination]; norm_num)

/-- **C6**: during a free spin (`in_free_spins = true` with remaining count `r`)
the grid is drawn from the `bonus` reel set when the machine has one and otherwise
from `normal`; the reported win is the base evaluation multiplied by
`free_spins_multiplier` with the profit recomputed from the multiplied win; the
reported remaining count is `max 0 (r − 1)`; and no new free-spin trigger is ever
reported. -/
theorem c6_free_spin_spin_semantics (config : MachineConfig)
    (reel_sets : List (String × List (List Int))) (positions : List Nat)
    (bet_amount : ℚ) (r : Int) :
    (slotMachineSpin config reel_sets positions bet_amount true r).grid
        = generateGrid
            ((reel_sets.lookup
                (if (reel_sets.lookup "bonus").isSome then "bonus" else "normal")).getD [])
            config.window_size positions
    ∧ (slotMachineSpin config reel_sets positions bet_amount true r).win_amount
        = calculateTotalWin config.pay_table config.paylines
            (slotMachineSpin config reel_sets positions bet_amount true r).grid
            bet_amount config.active_lines * config.free_spins_multiplier
    ∧ (slotMachineSpin config reel_sets positions bet_amount true r).profit
        = (slotMachineSpin config reel_sets positions bet_amount true r).win_amount - bet_amount
    ∧ (slotMachineSpin config reel_sets positions bet_amount true r).free_spins_remaining
        = max 0 (r - 1)
    ∧ (slotMachineSpin config reel_sets positions bet_amount true r).trigger_free_spins
        = false := by
  unfold slotMachineSpin
  simp

/-- **C7 counterexample**: with distribution parameters
`avg = 200, std = 0, min = 0, max = 100` (which satisfy `min ≤ max`), the sampled
balance — at construction and at every `Reset` — is `avg = 200`, outside
`[min, max]`: the `std ≤ 0` branch of `BalanceDistribution::GenerateBalance`
skips the clamp. -/
theorem c7_counterexample :
    ({ avg := 200, std := 0, min := 0, max := 100 } : BalanceDistribution).min
      ≤ ({ avg := 200, std := 0, min := 0, max := 100 } : BalanceDistribution).max
    ∧ (basePlayerReset { avg := 200, std := 0, min := 0, max := 100 } 50
        { balance := 5, active := true }).balance = 200
    ∧ ¬ ((200 : ℚ) ≤ 100) := by
  refine ⟨by norm_num, ?_, by norm_num⟩
  simp [basePlayerReset, generateBalance]

/-- **C7 amended**: the balance sampled at construction and at every `Reset` lies
in `[min, max]` whenever `std > 0` (the normal draw is clamped); when `std ≤ 0`
the sample is exactly `avg`, which need not lie in `[min, max]`. -/
theorem c7_reset_balance_bounds (d : BalanceDistribution) (normal_draw : ℚ)
    (st : BasePlayerState) (hminmax : d.min ≤ d.max) :
    (0 < d.std →
      d.min ≤ (basePlayerReset d normal_draw st).balance
        ∧ (basePlayerReset d normal_draw st).balance ≤ d.max)
    ∧ (d.std ≤ 0 → (basePlayerReset d normal_draw st).balance = d.avg) := by
  simp only [basePlayerReset, generateBalance, stdClamp]
  constructor
  · intro hstd
    rw [if_neg (by linarith)]
    constructor <;> split_ifs <;> linarith
  · intro hstd
    rw [if_pos hstd]

/-- Witness for `c7_reset_balance_bounds`: `avg = 50, std = 1, min = 0, max = 100`
with an extreme draw `500`. -/
theorem c7_reset_balance_bounds_witness :
    (0 < ({ avg := 50, std := 1, min := 0, max := 100 } : BalanceDistribution).std →
      ({ avg := 50, std := 1, min := 0, max := 100 } : BalanceDistribution).min
          ≤ (basePlayerReset { avg := 50, std := 1, min := 0, max := 100 } 500
              { balance := 0, active := true }).balance
        ∧ (basePlayerReset { avg := 50, std := 1, min := 0, max := 100 } 500
              { balance := 0, active := true }).balance
          ≤ ({ avg := 50, std := 1, min := 0, max := 100 } : BalanceDistribution).max)
    ∧ (({ avg := 50, std := 1, min := 0, max := 100 } : BalanceDistribution).std ≤ 0 →
        (basePlayerReset { avg := 50, std := 1, min := 0, max := 100 } 500
            { balance := 0, active := true }).balance
          = ({ avg := 50, std := 1, min := 0, max := 100 } : BalanceDistribution).avg) :=
  c7_reset_balance_bounds { avg := 50, std := 1, min := 0, max := 100 } 500
    { balance := 0, active := true } (by norm_num)

/-- **C9 counterexample**: a worker whose deque still holds task `7` observes the
already-set shutdown flag at its loop guard and exits immediately: the pool state
is unchanged (no task executed, the deque still non-empty), refuting "a worker
never exits while its deque still holds a pending task". -/
theorem c9_counterexample :
    workerLoop 0 1 5 { shutdown := true, queues := [[7]], executed := [] }
      = ({ shutdown := true, queues := [[7]], executed := [] }, true)
    ∧ ({ shutdown := true, queues := [[7]], executed := [] } : PoolState).queues.getD 0 [] ≠ [] := by
  constructor
  · rfl
  · decide

/-- **C9 amended**: once the shutdown flag is set (and the condition broadcast),
every worker exits at its next check of the `while (!shutdown_)` guard without
executing anything further: the deque contents — drained or not — are left
exactly as they were.  (Draining before shutdown is only obtained by calling
`WaitForCompletion` first.) -/
theorem c9_worker_exits_immediately_on_shutdown (thread_id thread_count fuel : Nat)
    (ps : PoolState) (hshutdown : ps.shutdown = true) (hfuel : 0 < fuel) :
    workerLoop thread_id thread_count fuel ps = (ps, true) := by
  cases fuel with
  | zero => omega
  | succ n =>
    rw [workerLoop, if_pos hshutdown]

/-- Witness for `c9_worker_exits_immediately_on_shutdown` at a concrete pool state
with a pending task. -/
theorem c9_worker_exits_immediately_on_shutdown_witness :
    workerLoop 2 4 3 { shutdown := true, queues := [[1], [2, 3], [], [4]], executed := [] }
      = ({ shutdown := true, queues := [[1], [2, 3], [], [4]], executed := [] }, true) :=
  c9_worker_exits_immediately_on_shutdown 2 4 3 _ rfl (by norm_num)

/-- **C5**: the session loop executes a spin exactly while none of the claimed
conditions holds and terminates at the first point one does: observing the
statistics and the executed-spin history, `RunSession`'s loop (which additionally
guards on `IsActive`, i.e. `balance > 0`) is equal to the claim-side loop that
stops exactly when caps are exceeded, `continue?` is false, the bet is ≤ 0, the
bet is not in the available-bets list, or the bet exceeds the balance — because
any decision taken at balance ≤ 0 already violates `bet > 0 ∧ bet ≤ balance`.
No spin is executed after a condition holds: both loops stop at that iteration. -/
theorem c5_session_termination_conditions {P : Type} (env : SessionEnv P) (max_spins : Int)
    (fuel : Nat) (st : ControllerState P) (stats : SessionStats)
    (hactive : st.active = true) :
    (sessionLoop env max_spins fuel st stats).map (fun r => (r.2, r.1.spin_history))
      = (sessionLoopSpec env max_spins fuel st stats).map (fun r => (r.2, r.1.spin_history)) := by
  induction fuel generalizing st stats hactive with
  | zero => rfl
  | succ n ih =>
    simp only [sessionLoop, sessionLoopSpec]
    by_cases hbal : st.balance > 0
    · by_cases hcaps : checkSessionLimits env stats max_spins = true
      · simp [hbal, hactive, hcaps]
      · by_cases hCont : (env.decide_fn st.pstate (prepareSessionData env st)).1.continue_playing
            = false
        · simp [hbal, hactive, hcaps, hCont]
        · by_cases hZero : (env.decide_fn st.pstate (prepareSessionData env st)).1.bet_amount ≤ 0
          · simp [hbal, hactive, hcaps, hCont, hZero]
          · by_cases hmem : (env.decide_fn st.pstate (prepareSessionData env st)).1.bet_amount
                ∈ env.available_bets
            · by_cases hlt : st.balance
                  < (env.decide_fn st.pstate (prepareSessionData env st)).1.bet_amount
              · simp [hbal, hactive, hcaps, hCont, hZero, hmem, hlt]
              · simp only [hactive]
                simp [hbal, hcaps, hCont, hZero, hmem, hlt]
                apply ih
                simp [executeSpin]
            · simp [hbal, hactive, hcaps, hCont, hZero, hmem]
    · by_cases hZero : (env.decide_fn st.pstate (prepareSessionData env st)).1.bet_amount ≤ 0
      · simp [hbal, hactive, hZero]
      · have hlt : st.balance
            < (env.decide_fn st.pstate (prepareSessionData env st)).1.bet_amount := by
          push_neg at hbal hZero
          linarith
        simp [hbal, hactive, hZero, hlt]

/-- Witness for `c5_session_termination_conditions`: the deterministic always-bet-1
environment from a fresh balance-3 state with a 2-spin cap. -/
theorem c5_session_termination_conditions_witness :
    (sessionLoop c5Env 2 5 c5Init {}).map (fun r => (r.2, r.1.spin_history))
      = (sessionLoopSpec c5Env 2 5 c5Init {}).map (fun r => (r.2, r.1.spin_history)) :=
  c5_session_termination_conditions c5Env 2 5 c5Init {} rfl

/-- Helper for C8: `UpdateSessionStats` never touches the `rtp` field. -/
theorem updateSessionStats_rtp (stats : SessionStats) (s : SpinResult) :
    (updateSessionStats stats s).rtp = stats.rtp := by
  simp only [updateSessionStats]
  split_ifs <;> rfl

/-- Helper for C8: the session loop never modifies the `rtp` field; only the
epilogue does. -/
theorem sessionLoop_rtp {P : Type} (env : SessionEnv P) (max_spins : Int) :
    ∀ (fuel : Nat) (st : ControllerState P) (stats : SessionStats)
      (r : ControllerState P × SessionStats),
      sessionLoop env max_spins fuel st stats = some r → r.2.rtp = stats.rtp := by
  intro fuel
  induction fuel with
  | zero => intro st stats r h; simp [sessionLoop] at h
  | succ n ih =>
    intro st stats r h
    simp only [sessionLoop] at h
    split at h
    · injection h with h2; rw [← h2]
    · split at h
      · injection h with h2; rw [← h2]
      · split at h
        · injection h with h2; rw [← h2]
        · split at h
          · injection h with h2; rw [← h2]
          · split at h
            · injection h with h2; rw [← h2]
            · have hr := ih _ _ _ h
              rw [hr]
              simp [executeSpin, updateSessionStats_rtp]

/-- **C8**: a completed session's `rtp` field equals `total_win / total_bet` when
`total_bet > 0` and equals the constructor default `0` when `total_bet = 0`
(e.g. a session with no spins): the loop never sets `rtp` and the epilogue only
sets it under `total_bet > 0`. -/
theorem c8_session_rtp {P : Type} (env : SessionEnv P) (max_spins : Int) (fuel : Nat)
    (init : ControllerState P) (r : ControllerState P × SessionStats)
    (h : runSession env max_spins fuel init = some r) :
    r.2.rtp = if r.2.total_bet > 0 then r.2.total_win / r.2.total_bet else 0 := by
  simp only [runSession] at h
  cases hloop : sessionLoop env max_spins fuel { init with spin_history := [] }
      { initial_balance := init.balance, final_balance := init.balance } with
  | none => rw [hloop] at h; exact absurd h (by simp)
  | some q =>
    rw [hloop] at h
    simp only [Option.map] at h
    injection h with h2
    rw [← h2]
    have h0 : q.2.rtp = 0 :=
      sessionLoop_rtp env max_spins fuel _ _ q hloop
    simp only [finalizeStats]
    split_ifs with hb
    · rfl
    · exact h0

/-- Witness for `c8_session_rtp`: a capped run that executes no spins, whose
record has `total_bet = 0` and `rtp = 0`. -/
theorem c8_session_rtp_witness :
    (({ pstate := (), balance := 3, active := true, in_free_spins := false,
          free_spins_remaining := 0, spin_history := [] },
        { initial_balance := 3, final_balance := 3, total_profit := 0 })
      : ControllerState Unit × SessionStats).2.rtp
    = if (({ pstate := (), balance := 3, active := true, in_free_spins := false,
              free_spins_remaining := 0, spin_history := [] },
            { initial_balance := 3, final_balance := 3, total_profit := 0 })
          : ControllerState Unit × SessionStats).2.total_bet > 0
      then (({ pstate := (), balance := 3, active := true, in_free_spins := false,
                free_spins_remaining := 0, spin_history := [] },
              { initial_balance := 3, final_balance := 3, total_profit := 0 })
            : ControllerState Unit × SessionStats).2.total_win
        / (({ pstate := (), balance := 3, active := true, in_free_spins := false,
                free_spins_remaining := 0, spin_history := [] },
              { initial_balance := 3, final_balance := 3, total_profit := 0 })
            : ControllerState Unit × SessionStats).2.total_bet
      else 0 :=
  c8_session_rtp c8Env 0 1 c8Init _ (by
    simp [runSession, sessionLoop, checkSessionLimits, c8Env, c8Init, finalizeStats])

/-- Helper for C10: folding `min` only decreases the accumulator. -/
theorem foldl_min_le_init (l : List ℚ) : ∀ a : ℚ, l.foldl min a ≤ a := by
  induction l with
  | nil => intro a; simp
  | cons x xs ih =>
    intro a
    simp only [List.foldl_cons]
    exact le_trans (ih (min a x)) (min_le_left a x)

/-- Helper for C10: `UpdateSessionStats` takes the `min` with the single spin's
profit when negative and leaves `max_loss_streak` unchanged otherwise. -/
theorem updateSessionStats_mls (stats : SessionStats) (s : SpinResult) :
    (updateSessionStats stats s).max_loss_streak
      = if s.profit < 0 then min stats.max_loss_streak s.profit
        else stats.max_loss_streak := by
  simp only [updateSessionStats]
  split_ifs <;> rfl

/-- Helper for C10: the loop maintains
`max_loss_streak = foldl min 0 (per-spin profits of the history)`. -/
theorem sessionLoop_mls {P : Type} (env : SessionEnv P) (max_spins : Int) :
    ∀ (fuel : Nat) (st : ControllerState P) (stats : SessionStats)
      (r : ControllerState P × SessionStats),
      sessionLoop env max_spins fuel st stats = some r →
      stats.max_loss_streak = (st.spin_history.map SpinResult.profit).foldl min 0 →
      r.2.max_loss_streak = (r.1.spin_history.map SpinResult.profit).foldl min 0 := by
  intro fuel
  induction fuel with
  | zero => intro st stats r h hinv; simp [sessionLoop] at h
  | succ n ih =>
    intro st stats r h hinv
    simp only [sessionLoop] at h
    split at h
    · injection h with h2; rw [← h2]; exact hinv
    · split at h
      · injection h with h2; rw [← h2]; exact hinv
      · split at h
        · injection h with h2; rw [← h2]; exact hinv
        · split at h
          · injection h with h2; rw [← h2]; exact hinv
          · split at h
            · injection h with h2; rw [← h2]; exact hinv
            · refine ih _ _ _ h ?_
              simp only [executeSpin, updateSessionStats_mls]
              rw [hinv]
              simp only [List.map_append, List.foldl_append, List.map_cons, List.map_nil,
                List.foldl_cons, List.foldl_nil]
              split_ifs with hp
              · rfl
              · push_neg at hp
                exact (min_eq_left
                  (le_trans (foldl_min_le_init _ 0) hp)).symm

/-- **C10**: a completed session's `max_loss_streak` field is the minimum of `0`
and the individual per-spin profits (the most negative single-spin profit, `0`
when no spin lost money), expressed as `foldl min 0` over the profits of the
executed spins; losses on consecutive spins are never accumulated. -/
theorem c10_max_loss_streak_single_spin {P : Type} (env : SessionEnv P) (max_spins : Int)
    (fuel : Nat) (init : ControllerState P) (r : ControllerState P × SessionStats)
    (h : runSession env max_spins fuel init = some r) :
    r.2.max_loss_streak = (r.1.spin_history.map SpinResult.profit).foldl min 0 := by
  simp only [runSession] at h
  cases hloop : sessionLoop env max_spins fuel { init with spin_history := [] }
      { initial_balance := init.balance, final_balance := init.balance } with
  | none => rw [hloop] at h; exact absurd h (by simp)
  | some q =>
    rw [hloop] at h
    simp only [Option.map] at h
    injection h with h2
    rw [← h2]
    have hmls := sessionLoop_mls env max_spins fuel _ _ q hloop (by simp)
    simp only [finalizeStats]
    split_ifs with hb
    · exact hmls
    · exact hmls

/-- Witness for `c10_max_loss_streak_single_spin`: a capped run that executes no
spins, whose record has `max_loss_streak = 0 = foldl min 0 []`. -/
theorem c10_max_loss_streak_single_spin_witness :
    (({ pstate := (), balance := 3, active := true, in_free_spins := false,
          free_spins_remaining := 0, spin_history := [] },
        { initial_balance := 3, final_balance := 3, total_profit := 0 })
      : ControllerState Unit × SessionStats).2.max_loss_streak
    = ((({ pstate := (), balance := 3, active := true, in_free_spins := false,
            free_spins_remaining := 0, spin_history := [] },
          { initial_balance := 3, final_balance := 3, total_profit := 0 })
        : ControllerState Unit × SessionStats).1.spin_history.map
          SpinResult.profit).foldl min 0 :=
  c10_max_loss_streak_single_spin c10Env 0 1 c10Init _ (by
    simp [runSession, sessionLoop, checkSessionLimits, c10Env, c10Init, finalizeStats])

end GailSim

